import Mathlib

/-!
Verification of the DataSync migration setup tool
(`src/datasync_setup_optimized.py`).

The Python source is shallowly embedded: each function that a claim is
about becomes a Lean definition over explicit inputs standing for the
results of the remote AWS calls (a `ClientError` carries its string
error code; any other Python exception is modelled by `PyErr.other`).
Functions that issue remote calls additionally return a trace of the
calls they made, so that claims about "which calls are issued" can be
stated and decided.
-/

namespace DataSync

/-- A Python exception as the source observes it: `botocore`'s
`ClientError` carries a machine-readable string code
(`err.response["Error"]["Code"]`); every other exception is opaque. -/
inductive PyErr where
  | clientError (code : String)
  | other (name : String)
deriving DecidableEq

/-! ## Bucket policies and `update_policy` (lines 297-347) -/

/-- One statement of a bucket-policy JSON document.  The fields are the
keys the source ever writes or reads: `update_policy` reads only
`s.get("Sid")` (absent `Sid` keys yield `None`, hence `Option`), and the
two statements it appends set `Sid`, `Effect`, `Principal.AWS`, `Action`
and `Resource`.  Foreign statements are arbitrary values of this type
and are carried through unmodified, which models byte-identical
preservation of their JSON text. -/
structure Stmt where
  sid : Option String
  effect : String
  principalAWS : Option String
  action : List String
  resource : List String
deriving DecidableEq

/-- A bucket-policy document: `{"Version": ..., "Statement": [...]}`.
A document whose `Statement` key is absent is modelled by the empty
statement list (`pol.get("Statement", [])` in the source). -/
structure Policy where
  version : String
  statement : List Stmt
deriving DecidableEq

/-- The two fresh DataSync statements built in `update_policy`
(lines 303-325). -/
def ds_stmts (bucket role_arn : String) : List Stmt :=
  [ { sid := some "DataSyncAllowBucketAccess"
    , effect := "Allow"
    , principalAWS := some role_arn
    , action := ["s3:GetBucketLocation", "s3:ListBucket", "s3:ListBucketMultipartUploads"]
    , resource := ["arn:aws:s3:::" ++ bucket] }
  , { sid := some "DataSyncAllowObjectAccess"
    , effect := "Allow"
    , principalAWS := some role_arn
    , action := ["s3:AbortMultipartUpload", "s3:DeleteObject", "s3:GetObject",
                 "s3:PutObject", "s3:PutObjectTagging", "s3:GetObjectTagging"]
    , resource := ["arn:aws:s3:::" ++ bucket ++ "/*"] }
  ]

/-- `ds_sids = {"DataSyncAllowBucketAccess", "DataSyncAllowObjectAccess"}`
(line 340). -/
def ds_sids : List String := ["DataSyncAllowBucketAccess", "DataSyncAllowObjectAccess"]

/-- `s.get("Sid") in ds_sids`: a statement with no `Sid` key
(`None`) is never in the set. -/
def stmt_sid_owned (s : Stmt) : Bool :=
  match s.sid with
  | some sid => ds_sids.contains sid
  | none => false

/-- The merged statement list of line 341-343:
`[s for s in pol.get("Statement", []) if s.get("Sid") not in ds_sids] + ds_stmts`. -/
def merged_statements (bucket role_arn : String) (stmts : List Stmt) : List Stmt :=
  stmts.filter (fun s => !stmt_sid_owned s) ++ ds_stmts bucket role_arn

/-- `update_policy(s3, bucket, role_arn, log, dry_run)` (lines 297-347).
`fetch` is the outcome of `s3.get_bucket_policy(Bucket=bucket)`, giving
the parsed existing document or the `ClientError` it raised.  The result
is `Except.ok none` when nothing is written (dry run), `Except.ok (some w)`
when document `w` is passed to `s3.put_bucket_policy`, and
`Except.error e` when the function re-raises `e`. -/
def update_policy (bucket role_arn : String) (fetch : Except PyErr Policy)
    (dry_run : Bool) : Except PyErr (Option Policy) :=
  if dry_run then Except.ok none
  else
    match fetch with
    | Except.ok pol =>
        Except.ok (some { pol with statement := merged_statements bucket role_arn pol.statement })
    | Except.error (PyErr.clientError code) =>
        if code = "NoSuchBucketPolicy" then
          Except.ok (some { version := "2012-10-17"
                          , statement := merged_statements bucket role_arn [] })
        else Except.error (PyErr.clientError code)
    | Except.error e => Except.error e

/-! ### Lemmas about the merge -/

/-- Both freshly built DataSync statements carry owned Sids. -/
theorem ds_stmts_owned (bucket role_arn : String) :
    ∀ s ∈ ds_stmts bucket role_arn, stmt_sid_owned s = true := by
  intro s hs
  simp only [ds_stmts, List.mem_cons, List.mem_singleton, List.not_mem_nil, or_false] at hs
  rcases hs with h | h <;> subst h <;> rfl

/-- Filtering the fresh DataSync statements for foreign Sids removes both. -/
theorem ds_stmts_filter_foreign (bucket role_arn : String) :
    (ds_stmts bucket role_arn).filter (fun s => !stmt_sid_owned s) = [] := rfl

/-- C1. Non-destructiveness of the policy merge: for every existing
document, the document written back consists of exactly the foreign
statements of the old document (those whose Sid is not in
`ds_sids`), unmodified and in their original relative order, followed by
exactly 2 system-owned statements whose `Principal` is the given role
identifier. -/
theorem update_policy_nondestructive (bucket role_arn : String) (pol : Policy) :
    ∃ w : Policy,
      update_policy bucket role_arn (Except.ok pol) false = Except.ok (some w) ∧
      w.statement = pol.statement.filter (fun s => !stmt_sid_owned s)
                      ++ ds_stmts bucket role_arn ∧
      (ds_stmts bucket role_arn).length = 2 ∧
      (∀ s ∈ ds_stmts bucket role_arn, s.principalAWS = some role_arn ∧
        stmt_sid_owned s = true) := by
  refine ⟨{ pol with statement := merged_statements bucket role_arn pol.statement },
          rfl, rfl, rfl, ?_⟩
  intro s hs
  refine ⟨?_, ds_stmts_owned bucket role_arn s hs⟩
  simp only [ds_stmts, List.mem_cons, List.mem_singleton, List.not_mem_nil, or_false] at hs
  rcases hs with h | h <;> subst h <;> rfl

/-- C2. The policy merge is idempotent: if the first call writes back
document `w`, a second call on `w` with the same role identifier writes
back `w` itself. -/
theorem update_policy_idempotent (bucket role_arn : String) (pol w : Policy)
    (h : update_policy bucket role_arn (Except.ok pol) false = Except.ok (some w)) :
    update_policy bucket role_arn (Except.ok w) false = Except.ok (some w) := by
  simp only [update_policy, Bool.false_eq_true, if_false, Except.ok.injEq,
    Option.some.injEq] at h
  subst h
  simp only [update_policy, Bool.false_eq_true, if_false, Except.ok.injEq,
    Option.some.injEq]
  have hstmt : merged_statements bucket role_arn
      (merged_statements bucket role_arn pol.statement)
      = merged_statements bucket role_arn pol.statement := by
    simp only [merged_statements, List.filter_append, ds_stmts_filter_foreign,
      List.append_nil, List.filter_filter]
    rw [List.filter_congr]
    intro s _
    cases hso : stmt_sid_owned s <;> simp [hso]
  cases pol
  simp only [hstmt]

/-- C2 witness: the idempotence theorem applied to the empty document. -/
theorem update_policy_idempotent_witness :
    update_policy "b" "r"
      (Except.ok { version := "2012-10-17", statement := ds_stmts "b" "r" }) false
      = Except.ok (some { version := "2012-10-17", statement := ds_stmts "b" "r" }) :=
  update_policy_idempotent "b" "r" { version := "2012-10-17", statement := [] }
    { version := "2012-10-17", statement := ds_stmts "b" "r" } rfl

/-- C9. A statement with no `Sid` key at all is classified as foreign:
the written-back document preserves, unchanged and in relative order,
exactly the Sid-less statements of the existing document (equal
filtered subsequences). -/
theorem update_policy_preserves_sidless (bucket role_arn : String) (pol w : Policy)
    (h : update_policy bucket role_arn (Except.ok pol) false = Except.ok (some w)) :
    w.statement.filter (fun s => s.sid.isNone)
      = pol.statement.filter (fun s => s.sid.isNone) := by
  simp only [update_policy, Bool.false_eq_true, if_false, Except.ok.injEq,
    Option.some.injEq] at h
  subst h
  simp only [merged_statements, List.filter_append, List.filter_filter]
  have hds : (ds_stmts bucket role_arn).filter (fun s => s.sid.isNone) = [] := rfl
  rw [hds, List.append_nil, List.filter_congr]
  intro s _
  cases hsid : s.sid with
  | none => simp [stmt_sid_owned, hsid]
  | some v => simp [hsid]

/-- C9 witness: a Sid-less statement survives a concrete merge. -/
theorem update_policy_preserves_sidless_witness :
    (({ version := "2012-10-17"
      , statement := Stmt.mk none "Deny" none [] [] :: ds_stmts "b" "r" } : Policy).statement.filter
        (fun s => s.sid.isNone))
      = (({ version := "2012-10-17"
          , statement := [Stmt.mk none "Deny" none [] []] } : Policy).statement.filter
            (fun s => s.sid.isNone)) := by
  have h := update_policy_preserves_sidless "b" "r"
    { version := "2012-10-17", statement := [Stmt.mk none "Deny" none [] []] }
    { version := "2012-10-17", statement := Stmt.mk none "Deny" none [] [] :: ds_stmts "b" "r" }
    rfl
  exact h

/-! ## `retry_with_backoff` (lines 353-368) -/

/-- The retriable error codes of line 361. -/
def retriable_codes : List String :=
  ["Throttling", "RequestLimitExceeded", "TooManyRequestsException"]

/-- Whether the `except ClientError` branch retries this error.  A
non-`ClientError` exception is not caught at all, which has the same
observable effect as the bare `raise`. -/
def is_retriable : PyErr → Bool
  | PyErr.clientError code => retriable_codes.contains code
  | PyErr.other _ => false

/-- Observable behaviour of one `retry_with_backoff` run: the value
returned or error raised (`result`, with `Except.ok none` for a `None`
return when the loop body never runs), the number of times `func` was
invoked, and the successive `time.sleep` durations.  The default
`backoff` is the float `2.0`; every delay the source can compute from it
with a natural exponent is integral, so delays are modelled as `Nat`. -/
structure RetryTrace (α : Type) where
  result : Except PyErr (Option α)
  attempts : Nat
  delays : List Nat

/-- The `for attempt in range(max_retries)` loop of lines 355-368,
unrolled with `fuel = max_retries - attempt` remaining iterations.
`f attempt` is the outcome of the `attempt`-th invocation of `func`. -/
def retry_from (f : Nat → Except PyErr α) (max_retries backoff : Nat) :
    Nat → Nat → RetryTrace α
  | 0, _ => { result := Except.ok none, attempts := 0, delays := [] }
  | fuel + 1, attempt =>
      match f attempt with
      | Except.ok a => { result := Except.ok (some a), attempts := 1, delays := [] }
      | Except.error e =>
          if is_retriable e && decide (attempt < max_retries - 1) then
            { result := (retry_from f max_retries backoff fuel (attempt + 1)).result,
              attempts := (retry_from f max_retries backoff fuel (attempt + 1)).attempts + 1,
              delays := backoff ^ attempt
                :: (retry_from f max_retries backoff fuel (attempt + 1)).delays }
          else { result := Except.error e, attempts := 1, delays := [] }

/-- `retry_with_backoff(func, max_retries, backoff)` (line 353): run the
loop from attempt 0 with `max_retries` iterations available. -/
def retry_with_backoff (f : Nat → Except PyErr α) (max_retries backoff : Nat) :
    RetryTrace α :=
  retry_from f max_retries backoff max_retries 0

/-- One-step unfolding of the loop when at least one iteration remains. -/
theorem retry_from_succ (f : Nat → Except PyErr α) (max_retries backoff fuel attempt : Nat) :
    retry_from f max_retries backoff (fuel + 1) attempt
      = match f attempt with
        | Except.ok a => { result := Except.ok (some a), attempts := 1, delays := [] }
        | Except.error e =>
            if is_retriable e && decide (attempt < max_retries - 1) then
              { result := (retry_from f max_retries backoff fuel (attempt + 1)).result,
                attempts := (retry_from f max_retries backoff fuel (attempt + 1)).attempts + 1,
                delays := backoff ^ attempt
                  :: (retry_from f max_retries backoff fuel (attempt + 1)).delays }
            else { result := Except.error e, attempts := 1, delays := [] } := rfl

/-- The loop performs at most as many invocations as it has iterations. -/
theorem retry_from_attempts_le (f : Nat → Except PyErr α) (max_retries backoff : Nat) :
    ∀ fuel attempt, (retry_from f max_retries backoff fuel attempt).attempts ≤ fuel := by
  intro fuel
  induction fuel with
  | zero => intro attempt; simp [retry_from]
  | succ n ih =>
      intro attempt
      simp only [retry_from]
      cases f attempt with
      | ok a => simp
      | error e =>
          by_cases hc : (is_retriable e && decide (attempt < max_retries - 1)) = true
          · simp only [hc, if_true]
            exact Nat.succ_le_succ (ih (attempt + 1))
          · simp only [hc, if_false]
            exact Nat.succ_le_succ (Nat.zero_le n)

/-- If every invocation fails with the same retriable error, the loop
uses all its remaining iterations and raises that error. -/
theorem retry_from_const_retriable (f : Nat → Except PyErr α) (max_retries backoff : Nat)
    (e : PyErr) (he : is_retriable e = true) (hf : ∀ i, f i = Except.error e) :
    ∀ fuel attempt, 1 ≤ fuel → attempt + fuel = max_retries →
      (retry_from f max_retries backoff fuel attempt).attempts = fuel ∧
      (retry_from f max_retries backoff fuel attempt).result = Except.error e := by
  intro fuel
  induction fuel with
  | zero => intro attempt h1 _; omega
  | succ n ih =>
      intro attempt _ hsum
      cases n with
      | zero =>
          have hlt : ¬ attempt < max_retries - 1 := by omega
          simp [retry_from, hf attempt, hlt]
      | succ m =>
          have hlt : attempt < max_retries - 1 := by omega
          have hcond : (is_retriable e && decide (attempt < max_retries - 1)) = true := by
            simp [he, hlt]
          have hrec := ih (attempt + 1) (by omega) (by omega)
          rw [retry_from_succ, hf attempt]
          dsimp only
          rw [if_pos hcond]
          exact ⟨by rw [hrec.1], hrec.2⟩

/-- C5. Retry bound: the wrapped operation is invoked at most
`max_retries` times; an operation failing with a transient-throttle
error on every attempt is invoked exactly `max_retries` times and the
original error propagates unmodified; an operation failing with a
non-transient error on the first attempt is invoked exactly once and
that error propagates unmodified. -/
theorem retry_with_backoff_bound (f : Nat → Except PyErr α)
    (max_retries backoff : Nat) (e₁ e₂ : PyErr) :
    (retry_with_backoff f max_retries backoff).attempts ≤ max_retries ∧
    (is_retriable e₁ = true → (∀ i, f i = Except.error e₁) → 1 ≤ max_retries →
      (retry_with_backoff f max_retries backoff).attempts = max_retries ∧
      (retry_with_backoff f max_retries backoff).result = Except.error e₁) ∧
    (is_retriable e₂ = false → f 0 = Except.error e₂ → 1 ≤ max_retries →
      (retry_with_backoff f max_retries backoff).attempts = 1 ∧
      (retry_with_backoff f max_retries backoff).result = Except.error e₂) := by
  refine ⟨retry_from_attempts_le f max_retries backoff max_retries 0, ?_, ?_⟩
  · intro he hf hmr
    exact retry_from_const_retriable f max_retries backoff e₁ he hf max_retries 0 hmr
      (by omega)
  · intro he hf hmr
    obtain ⟨n, hn⟩ : ∃ n, max_retries = n + 1 := ⟨max_retries - 1, by omega⟩
    subst hn
    simp [retry_with_backoff, retry_from, hf, he]

/-- An operation that is throttled on every attempt. -/
def always_throttled : Nat → Except PyErr Unit :=
  fun _ => Except.error (PyErr.clientError "Throttling")

/-- An operation that fails with a non-transient error on every attempt. -/
def always_denied : Nat → Except PyErr Unit :=
  fun _ => Except.error (PyErr.clientError "AccessDenied")

/-- C5 witness: with the default configuration, a permanently throttled
operation is invoked exactly 3 times and the throttle error surfaces; a
permanently denied operation is invoked exactly once. -/
theorem retry_with_backoff_bound_witness :
    (retry_with_backoff always_throttled 3 2).attempts = 3 ∧
    (retry_with_backoff always_throttled 3 2).result
      = Except.error (PyErr.clientError "Throttling") ∧
    (retry_with_backoff always_denied 3 2).attempts = 1 ∧
    (retry_with_backoff always_denied 3 2).result
      = Except.error (PyErr.clientError "AccessDenied") := by
  have h₁ := (retry_with_backoff_bound always_throttled 3 2
    (PyErr.clientError "Throttling") (PyErr.other "x")).2.1
    (by decide) (fun i => rfl) (by decide)
  have h₂ := (retry_with_backoff_bound always_denied 3 2
    (PyErr.other "x") (PyErr.clientError "AccessDenied")).2.2
    (by decide) rfl (by decide)
  exact ⟨h₁.1, h₁.2, h₂.1, h₂.2⟩

/-- C6. With the default configuration (`max_retries = 3`,
`backoff = 2`) and an operation throttled on every attempt, the
successive backoff delays actually slept are 1 and 2 time units
(`backoff ** attempt` with `attempt` counted from 0, and only
`max_retries - 1 = 2` sleeps ever happen) — not the 2, 4, 8 promised by
the source's own docstring (`"Retries: 2s, 4s, 8s"`, line 354) and the
spec. -/
theorem retry_with_backoff_default_delays :
    (retry_with_backoff always_throttled 3 2).delays = [1, 2] ∧
    (retry_with_backoff always_throttled 3 2).delays ≠ [2, 4, 8] := by
  constructor
  · rfl
  · intro h
    simp only [retry_with_backoff, retry_from, always_throttled] at h
    exact absurd h (by decide)

/-! ## `verify_bucket_access` (lines 374-387) -/

/-- `verify_bucket_access(s3, bucket, log)`: `head` is the outcome of
`s3.head_bucket(Bucket=bucket)`.  Every `ClientError` — code `"404"`,
`"403"` or anything else — is caught, logged and turned into `False`;
only a non-`ClientError` exception propagates. -/
def verify_bucket_access (head : Except PyErr Unit) : Except PyErr Bool :=
  match head with
  | Except.ok _ => Except.ok true
  | Except.error (PyErr.clientError _) => Except.ok false
  | Except.error e => Except.error e

/-- C8 counterexample: for a remote error that is neither not-found nor
forbidden (code `"ServiceUnavailable"`), the verifier still returns the
boolean `false` — it does not surface the underlying error to the
caller, contrary to the claim. -/
theorem verify_bucket_access_unknown_counterexample :
    verify_bucket_access (Except.error (PyErr.clientError "ServiceUnavailable"))
      = Except.ok false := rfl

/-- C8 (amended). The verifier returns a boolean reachability signal and
never raises for **any** remote (`ClientError`) failure — not-found,
forbidden, or unknown codes alike; a reachable bucket yields `true`. -/
theorem verify_bucket_access_total_on_client_errors (code : String) :
    verify_bucket_access (Except.error (PyErr.clientError code)) = Except.ok false ∧
    verify_bucket_access (Except.ok ()) = Except.ok true :=
  ⟨rfl, rfl⟩

/-! ## `setup_iam` (lines 178-291) -/

/-- A mutating IAM call issued by `setup_iam`.  The JSON trust and
permission documents passed to the calls are elided from the trace: no
claim concerns their content, only whether the calls happen. -/
inductive IamCall where
  | create_role (role_name : String)
  | put_role_policy (role_name policy_name : String)
deriving DecidableEq

/-- `setup_iam(iam, role_name, policy_name, acct_id, ...)` (lines
178-291).  `get_role` is the outcome of `iam.get_role(RoleName=role_name)`
(the looked-up role's body is irrelevant, only success or the raised
error).  Returns the role ARN, the "was newly created" flag, and the
trace of mutating IAM calls issued. -/
def setup_iam (get_role : Except PyErr Unit) (role_name policy_name acct_id : String)
    (dry_run : Bool) : Except PyErr (String × Bool × List IamCall) :=
  let role_arn := "arn:aws:iam::" ++ acct_id ++ ":role/" ++ role_name
  match get_role with
  | Except.ok _ => Except.ok (role_arn, false, [])
  | Except.error (PyErr.clientError code) =>
      if code ≠ "NoSuchEntity" then Except.error (PyErr.clientError code)
      else if dry_run then Except.ok (role_arn, true, [])
      else Except.ok (role_arn, true,
        [IamCall.create_role role_name, IamCall.put_role_policy role_name policy_name])
  | Except.error e => Except.error e

/-- C4. Role reuse: whenever the role lookup succeeds, `setup_iam`
returns the role's ARN with the flag `false` and issues no `create_role`
and no `put_role_policy` call, for every input (in particular it never
inspects the existing role's documents). -/
theorem setup_iam_reuses_existing_role (get_role : Except PyErr Unit)
    (role_name policy_name acct_id : String) (dry_run : Bool)
    (h : get_role = Except.ok ()) :
    setup_iam get_role role_name policy_name acct_id dry_run
      = Except.ok ("arn:aws:iam::" ++ acct_id ++ ":role/" ++ role_name, false, []) := by
  subst h
  rfl

/-- C4 witness: the reuse theorem at a concrete role lookup. -/
theorem setup_iam_reuses_existing_role_witness :
    setup_iam (Except.ok ()) "datasync-role" "datasync-policy" "123456789012" false
      = Except.ok ("arn:aws:iam::123456789012:role/datasync-role", false, []) :=
  setup_iam_reuses_existing_role (Except.ok ()) "datasync-role" "datasync-policy"
    "123456789012" false rfl

/-! ## `create_datasync` (lines 393-468) -/

/-- The remote DataSync control plane as `create_datasync` observes it.
Each creation field is the outcome of the corresponding
`retry_with_backoff`-wrapped call (the `LocationArn`/`TaskArn` on
success, or the error that survived the retry wrapper — the claims about
this function speak of a step "failing after retries are exhausted").
`delete_location` gives the outcome of `ds.delete_location` per ARN. -/
structure DsEnv where
  create_location_src : Except PyErr String
  create_location_dst : Except PyErr String
  create_task : Except PyErr String
  delete_location : String → Except PyErr Unit

/-- Observable behaviour of one `create_datasync` run: the returned task
ARN or re-raised error, and the rollback calls issued — each
`delete_location` call with the ARN it was given and the outcome the
remote side produced (a failing delete is caught, logged and ignored). -/
structure CreateTrace where
  result : Except PyErr String
  deletes : List (String × Except PyErr Unit)

/-- The rollback loop of lines 461-467:
`for res_type, res_arn in reversed(created_resources)`, issuing
`ds.delete_location` for every resource of kind `"location"` and
swallowing any cleanup error. -/
def rollback_deletes (delete_location : String → Except PyErr Unit)
    (created_resources : List (String × String)) : List (String × Except PyErr Unit) :=
  created_resources.reverse.filterMap fun r =>
    if r.1 = "location" then some (r.2, delete_location r.2) else none

/-- `create_datasync(ds, src, dst, role_arn, opts, log, dry_run)`
(lines 393-468): create the source location, the destination location
and the task in order, recording each created resource; on any failure
run the rollback loop over everything recorded so far and re-raise the
original error. -/
def create_datasync (env : DsEnv) (dry_run : Bool) : CreateTrace :=
  if dry_run then
    { result := Except.ok "arn:aws:datasync:region:account:task/task-DRYRUN", deletes := [] }
  else
    match env.create_location_src with
    | Except.error e => { result := Except.error e, deletes := rollback_deletes env.delete_location [] }
    | Except.ok src_loc =>
        match env.create_location_dst with
        | Except.error e =>
            { result := Except.error e
            , deletes := rollback_deletes env.delete_location [("location", src_loc)] }
        | Except.ok dst_loc =>
            match env.create_task with
            | Except.error e =>
                { result := Except.error e
                , deletes := rollback_deletes env.delete_location
                    [("location", src_loc), ("location", dst_loc)] }
            | Except.ok task_arn => { result := Except.ok task_arn, deletes := [] }

/-- C3. Rollback completeness: if creation step k of the 3 steps fails,
exactly k-1 `delete_location` calls are issued, one per resource created
in steps 1..k-1, in reverse creation order, and the original failure is
re-raised unchanged.  The delete outcomes `env.delete_location` are
universally quantified, so a failing delete neither prevents the
remaining delete calls nor replaces the original error. -/
theorem create_datasync_rollback (env : DsEnv) (e : PyErr) :
    (env.create_location_src = Except.error e →
      create_datasync env false = { result := Except.error e, deletes := [] }) ∧
    (∀ src_loc, env.create_location_src = Except.ok src_loc →
      env.create_location_dst = Except.error e →
      create_datasync env false
        = { result := Except.error e
          , deletes := [(src_loc, env.delete_location src_loc)] }) ∧
    (∀ src_loc dst_loc, env.create_location_src = Except.ok src_loc →
      env.create_location_dst = Except.ok dst_loc →
      env.create_task = Except.error e →
      create_datasync env false
        = { result := Except.error e
          , deletes := [(dst_loc, env.delete_location dst_loc),
                        (src_loc, env.delete_location src_loc)] }) := by
  refine ⟨?_, ?_, ?_⟩
  · intro h1
    simp [create_datasync, h1, rollback_deletes]
  · intro src_loc h1 h2
    simp [create_datasync, h1, h2, rollback_deletes]
  · intro src_loc dst_loc h1 h2 h3
    simp [create_datasync, h1, h2, h3, rollback_deletes]

/-- A concrete environment in which the task-creation step fails and
every rollback delete also fails. -/
def env_task_fails : DsEnv :=
  { create_location_src := Except.ok "arn:src-loc"
  , create_location_dst := Except.ok "arn:dst-loc"
  , create_task := Except.error (PyErr.clientError "InternalError")
  , delete_location := fun _ => Except.error (PyErr.clientError "AccessDenied") }

/-- C3 witness: with step 3 failing, both locations are deleted in
reverse order even though each delete itself fails, and the original
task-creation error is re-raised. -/
theorem create_datasync_rollback_witness :
    create_datasync env_task_fails false
      = { result := Except.error (PyErr.clientError "InternalError")
        , deletes := [("arn:dst-loc", Except.error (PyErr.clientError "AccessDenied")),
                      ("arn:src-loc", Except.error (PyErr.clientError "AccessDenied"))] } :=
  (create_datasync_rollback env_task_fails
      (PyErr.clientError "InternalError")).2.2 "arn:src-loc" "arn:dst-loc" rfl rfl rfl

/-! ## `backup_policies` (lines 87-172) -/

/-- An observable action of `backup_policies` for one bucket: writing
the backup file (with the fetched policy text) and logging success, or
logging that there is no policy to back up; plus the final creation of
the restore script. -/
inductive BackupEvent where
  | wroteBackup (typ : String) (policy : String)
  | loggedNoPolicy (typ : String)
  | createdRestore
deriving DecidableEq

/-- The loop body of lines 103-112 for one bucket, `typ` being
`"source"` or `"dest"` and `fetch` the outcome of
`s3.get_bucket_policy(Bucket=bucket)` (the policy JSON text on
success).  A `ClientError` whose code is not `"NoSuchBucketPolicy"`
falls through the `if` with no write, no log and no re-raise; a
non-`ClientError` exception propagates. -/
def backup_one_bucket (typ : String) (fetch : Except PyErr String) :
    Except PyErr (List BackupEvent) :=
  match fetch with
  | Except.ok policy => Except.ok [BackupEvent.wroteBackup typ policy]
  | Except.error (PyErr.clientError code) =>
      if code = "NoSuchBucketPolicy" then Except.ok [BackupEvent.loggedNoPolicy typ]
      else Except.ok []
  | Except.error e => Except.error e

/-- `backup_policies(...)` (lines 87-172): in non-dry-run mode, run the
backup loop for the source bucket then the destination bucket, then
write the restore script.  `src_fetch`/`dst_fetch` are the outcomes of
the two `get_bucket_policy` calls. -/
def backup_policies (src_fetch dst_fetch : Except PyErr String) (dry_run : Bool) :
    Except PyErr (List BackupEvent) :=
  if dry_run then Except.ok []
  else
    match backup_one_bucket "source" src_fetch with
    | Except.error e => Except.error e
    | Except.ok src_events =>
        match backup_one_bucket "dest" dst_fetch with
        | Except.error e => Except.error e
        | Except.ok dst_events =>
            Except.ok (src_events ++ dst_events ++ [BackupEvent.createdRestore])

/-- C10. If reading a bucket's policy fails with a remote error whose
code is not `NoSuchBucketPolicy`, the error is swallowed: no backup file
is written for that bucket, nothing is logged for that case, no
exception propagates, and the run proceeds (the other bucket is still
processed and the restore script is still created). -/
theorem backup_policies_swallows_unknown_errors (code : String)
    (dst_fetch : Except PyErr String) (dst_events : List BackupEvent)
    (hcode : code ≠ "NoSuchBucketPolicy")
    (hdst : backup_one_bucket "dest" dst_fetch = Except.ok dst_events) :
    backup_one_bucket "source" (Except.error (PyErr.clientError code)) = Except.ok [] ∧
    backup_policies (Except.error (PyErr.clientError code)) dst_fetch false
      = Except.ok (dst_events ++ [BackupEvent.createdRestore]) := by
  have hsrc : backup_one_bucket "source" (Except.error (PyErr.clientError code))
      = Except.ok [] := by
    simp [backup_one_bucket, hcode]
  refine ⟨hsrc, ?_⟩
  simp [backup_policies, hsrc, hdst]

/-- C10 witness: an access-denied read of the source policy is silently
skipped while the destination policy is still backed up. -/
theorem backup_policies_swallows_unknown_errors_witness :
    backup_one_bucket "source" (Except.error (PyErr.clientError "AccessDenied"))
      = Except.ok [] ∧
    backup_policies (Except.error (PyErr.clientError "AccessDenied"))
      (Except.ok "dest-policy-json") false
      = Except.ok [BackupEvent.wroteBackup "dest" "dest-policy-json",
                   BackupEvent.createdRestore] :=
  backup_policies_swallows_unknown_errors "AccessDenied" (Except.ok "dest-policy-json")
    [BackupEvent.wroteBackup "dest" "dest-policy-json"] (by decide) rfl

/-! ## The orchestration loop of `main` (lines 525-583) -/

/-- The per-migration loop of `main`: `outcome m` is what the body of
the `try` block does for migration `m` — either the `(task_arn, bak_dir)`
style result appended to `results`, or the exception the body raised.
Returns the accumulated `results` list and the list of migrations whose
body was started, in order; on the first exception the loop logs and
`break`s. -/
def run_migrations {μ ρ : Type} (outcome : μ → Except PyErr ρ) :
    List μ → List (μ × ρ) × List μ
  | [] => ([], [])
  | m :: rest =>
      match outcome m with
      | Except.error _ => ([], [m])
      | Except.ok r =>
          ((m, r) :: (run_migrations outcome rest).1,
           m :: (run_migrations outcome rest).2)

/-- C7. Fail-fast ordering: migrations are processed strictly in order;
if every migration of the prefix `l₁` succeeds and `m` then fails, the
accumulated results are exactly the results of `l₁` (all retained, in
order) and the attempted migrations are exactly `l₁ ++ [m]` — nothing
after the failing migration is ever attempted. -/
theorem run_migrations_fail_fast {μ ρ : Type} (outcome : μ → Except PyErr ρ)
    (r : μ → ρ) (l₁ l₂ : List μ) (m : μ) (e : PyErr)
    (h1 : ∀ x ∈ l₁, outcome x = Except.ok (r x))
    (h2 : outcome m = Except.error e) :
    run_migrations outcome (l₁ ++ m :: l₂)
      = (l₁.map (fun x => (x, r x)), l₁ ++ [m]) := by
  induction l₁ with
  | nil =>
      simp only [List.nil_append, run_migrations, h2, List.map_nil]
  | cons a rest ih =>
      have ha : outcome a = Except.ok (r a) := h1 a (List.mem_cons_self a rest)
      have hrest : ∀ x ∈ rest, outcome x = Except.ok (r x) :=
        fun x hx => h1 x (List.mem_cons_of_mem a hx)
      simp only [List.cons_append, run_migrations, ha, List.append_eq, ih hrest,
        List.map_cons]

/-- Migration outcomes for the canonical [A, B, C] scenario: A succeeds,
B fails, C would succeed if it were ever attempted. -/
def abc_outcome : String → Except PyErr String
  | "B" => Except.error (PyErr.clientError "AccessDenied")
  | b => Except.ok ("task-" ++ b)

/-- C7 witness: with migrations [A, B, C] and B failing, the results
hold exactly A's entry and C is never attempted. -/
theorem run_migrations_fail_fast_witness :
    run_migrations abc_outcome ["A", "B", "C"]
      = ([("A", "task-A")], ["A", "B"]) :=
  run_migrations_fail_fast abc_outcome (fun b => "task-" ++ b) ["A"] ["C"] "B"
    (PyErr.clientError "AccessDenied")
    (by intro x hx; simp only [List.mem_singleton] at hx; subst hx; rfl) rfl

end DataSync
